import Mathlib

/-!
Verification of the Job Nexus backend (src/main.py): the job list/filter
logic and the LinkedIn identity-exchange callback flow, shallowly embedded.
Documents are modelled as records of the fields the code reads; outbound
HTTP responses are inputs of the embedded callback.
-/

namespace JobNexus

/-! ## Job catalog (main.py 74-168) -/

/-- A job document as stored in the `job` collection.  The code reads the
fields `title`, `company`, `location`, `tags` and `match` (the latter with
`x.get("match", 0)`, so a document may lack it — hence `Option`).  `match`
is a Lean keyword, so the field is called `matchScore` here. -/
structure JobDoc where
  title : String
  company : String
  location : String
  tags : List String
  matchScore : Option Int
  deriving DecidableEq, Repr

/-- `x.get("match", 0)` — the sort key used at main.py:160. -/
def matchKey (j : JobDoc) : Int := j.matchScore.getD 0

/-- Models the fragment of the PCRE engine behind MongoDB `$regex` exercised
here: a literal character matches itself and `.` matches any single
character; this function matches the pattern anchored at the start of the
text. -/
def reMatchHere : List Char → List Char → Bool
  | [], _ => true
  | _ :: _, [] => false
  | p :: ps, c :: cs => (p == '.' || p == c) && reMatchHere ps cs

/-- Unanchored search: `$regex` matches if the pattern matches at any
position of the field value. -/
def reSearch (pat : List Char) : List Char → Bool
  | [] => reMatchHere pat []
  | c :: cs => reMatchHere pat (c :: cs) || reSearch pat cs

/-- The characters of a string, lower-cased (ASCII case folding). -/
def lowerChars (s : String) : List Char :=
  s.data.map Char.toLower

/-- `{"$regex": q, "$options": "i"}` (main.py:140): case-insensitive regex
search, case-folding modelled by lower-casing both sides. -/
def regexSearchI (pat s : String) : Bool :=
  reSearch (lowerChars pat) (lowerChars s)

/-- The `$or` filter built when `q` is truthy (main.py 139-145). -/
def matchesQ (q : String) (j : JobDoc) : Bool :=
  regexSearchI q j.title || regexSearchI q j.company || regexSearchI q j.location

/-- Split a character list at every occurrence of `sep`, Python
`str.split(sep)` style: splitting the empty string yields one empty part. -/
def splitOnChar (sep : Char) : List Char → List (List Char)
  | [] => [[]]
  | c :: cs =>
    if c = sep then [] :: splitOnChar sep cs
    else
      match splitOnChar sep cs with
      | [] => [[c]]
      | w :: ws => (c :: w) :: ws

/-- Python `str.split(",")`. -/
def pySplitComma (s : String) : List String :=
  (splitOnChar ',' s.data).map (fun w => ⟨w⟩)

/-- Python `str.strip()`: drop whitespace from both ends. -/
def pyStrip (s : String) : String :=
  ⟨((s.data.dropWhile Char.isWhitespace).reverse.dropWhile Char.isWhitespace).reverse⟩

/-- `[t.strip() for t in tags.split(",") if t.strip()]` (main.py:148). -/
def parseTags (tags : String) : List String :=
  ((pySplitComma tags).map pyStrip).filter (fun t => t ≠ "")

/-- `{"tags": {"$all": tag_list}}` (main.py:150): the document's tags array
contains every listed tag. -/
def matchesTags (tagList : List String) (j : JobDoc) : Bool :=
  tagList.all (fun t => j.tags.contains t)

/-- The Mongo query dict built by `list_jobs`, evaluated on one document
(`get_documents` returns the documents satisfying the filter).  Python
truthiness: an absent or empty `q`/`tags` adds no clause, and an empty
`tag_list` adds no tags clause. -/
def jobQueryFilter (q tags : Option String) (j : JobDoc) : Bool :=
  (match q with
   | none => true
   | some s => if s = "" then true else matchesQ s j) &&
  (match tags with
   | none => true
   | some s =>
     if s = "" then true
     else
       let tagList := parseTags s
       if tagList = [] then true else matchesTags tagList j)

/-- `list_jobs` (main.py 128-162): query the collection, sort by `match`
descending (Python `list.sort` is a stable sort; `reverse=True`), and return
the items together with `len(docs)`. -/
def list_jobs (q tags : Option String) (docs : List JobDoc) : List JobDoc × Nat :=
  let filtered := docs.filter (jobQueryFilter q tags)
  let sorted := filtered.mergeSort (fun a b => decide (matchKey b ≤ matchKey a))
  (sorted, sorted.length)

/-- Anchored case-insensitive substring test over character lists. -/
def charsStartWith : List Char → List Char → Bool
  | [], _ => true
  | _ :: _, [] => false
  | p :: ps, c :: cs => (p == c) && charsStartWith ps cs

/-- Substring occurrence at any position. -/
def charsContain (needle : List Char) : List Char → Bool
  | [] => charsStartWith needle []
  | c :: cs => charsStartWith needle (c :: cs) || charsContain needle cs

/-- The spec's reading of the `q` filter: `q` appears as a case-insensitive
*literal substring* of the field.  Stated from the spec's words, to be
compared with the regex-based filter the code actually builds. -/
def specSubstrCI (q s : String) : Bool :=
  charsContain (lowerChars q) (lowerChars s)

/-! ## LinkedIn identity exchange (main.py 174-296)

The outbound HTTP responses (token exchange, /me, emailAddress) are inputs
of the embedded callback; JSON bodies are modelled as records of exactly the
keys the code reads, with `Option` for keys that may be absent. -/

/-- Python truthiness of an optional string (`os.getenv` result, JSON
field): `None` and `""` are falsy. -/
def truthy : Option String → Bool
  | none => false
  | some s => s ≠ ""

/-- The token-endpoint response: HTTP status, response text, and the
`access_token` field of the JSON body (absent if missing). -/
structure TokenResp where
  status : Nat
  body : String
  access_token : Option String
  deriving DecidableEq, Repr

/-- `me["primaryLocale"]`: `{language, country}`, each possibly absent. -/
structure PrimaryLocale where
  language : Option String
  country : Option String
  deriving DecidableEq, Repr

/-- One entry of an element's `identifiers` list. -/
structure AvatarIdent where
  identifier : Option String
  deriving DecidableEq, Repr

/-- One entry of `displayImage~.elements`; `identifiers` may be absent
(a KeyError the code swallows). -/
structure ImgElement where
  identifiers : Option (List AvatarIdent)
  deriving DecidableEq, Repr

/-- `me["profilePicture"]["displayImage~"]`; `elements` may be absent. -/
structure DisplayImage where
  elements : Option (List ImgElement)
  deriving DecidableEq, Repr

/-- `me["profilePicture"]`; the `displayImage~` key may be absent. -/
structure ProfilePicture where
  displayImage : Option DisplayImage
  deriving DecidableEq, Repr

/-- The `/v2/me` JSON body, restricted to the keys the code reads. -/
structure Me where
  id : Option String
  localizedFirstName : Option String
  localizedLastName : Option String
  headline : Option String
  profilePicture : Option ProfilePicture
  primaryLocale : Option PrimaryLocale
  deriving DecidableEq, Repr

/-- The `/v2/me` response: HTTP status, response text, parsed body. -/
structure MeResp where
  status : Nat
  body : String
  me : Me
  deriving DecidableEq, Repr

/-- `elements[i]["handle~"]` of the email response. -/
structure HandleObj where
  emailAddress : Option String
  deriving DecidableEq, Repr

/-- One entry of the email response's `elements` list; the `handle~` key may
be absent (`.get("handle~", {})` then yields no `emailAddress`). -/
structure EmailElement where
  handle : Option HandleObj
  deriving DecidableEq, Repr

/-- The `/v2/emailAddress` response: HTTP status and the `elements` list of
the JSON body (`ej.get("elements", [])` makes an absent key the same as an
empty list). -/
structure EmailResp where
  status : Nat
  elements : List EmailElement
  deriving DecidableEq, Repr

/-- Email extraction (main.py 240-246): only on a 200 status; indexing an
empty `elements` list raises and is caught (→ `None`); a missing `handle~`
key defaults to `{}` whose `emailAddress` lookup yields `None`. -/
def extractEmail (r : EmailResp) : Option String :=
  if r.status = 200 then
    match r.elements with
    | [] => none
    | e :: _ =>
      match e.handle with
      | none => none
      | some h => h.emailAddress
  else none

/-- Avatar extraction (main.py 249-257): navigate
`profilePicture → displayImage~ → elements`, take the last element's first
identifier's `identifier` value; any missing key or empty list yields
`None` (the `try/except` swallows KeyError/IndexError). -/
def extractAvatar (me : Me) : Option String :=
  match me.profilePicture with
  | none => none
  | some pp =>
    match pp.displayImage with
    | none => none
    | some di =>
      match di.elements with
      | none => none
      | some imgs =>
        match imgs.getLast? with
        | none => none
        | some lastE =>
          match lastE.identifiers with
          | none => none
          | some [] => none
          | some (i :: _) => i.identifier

/-- `" ".join([p for p in [first_name, last_name] if p]) or None`
(main.py:261): falsy parts (`None`, `""`) are dropped; an empty join is
`None`. -/
def mkFullName (fn ln : Option String) : Option String :=
  let parts := (([fn, ln].filterMap id).filter (fun p => p ≠ ""))
  let s := String.intercalate " " parts
  if s = "" then none else some s

/-- Locale derivation (main.py:272):
`(primaryLocale.get("language") or "") + ("_" + country if country else "")`
with `country = primaryLocale.get("country")`; Python truthiness makes an
absent or empty country add no suffix. -/
def deriveLocale (pl : Option PrimaryLocale) : String :=
  let lang := match pl with
    | some p => p.language.getD ""
    | none => ""
  let ctry := match pl with
    | some p => p.country.getD ""
    | none => ""
  lang ++ (if ctry = "" then "" else "_" ++ ctry)

/-- The `LinkedInProfile` record built at main.py 264-274 (`raw` keeps the
full `/v2/me` body). -/
structure LinkedInProfile where
  linkedin_id : String
  first_name : Option String
  last_name : Option String
  full_name : Option String
  email : Option String
  headline : Option String
  avatar_url : Option String
  locale : String
  raw : Me
  deriving DecidableEq, Repr

/-- Normalization (main.py 259-274): build the profile from the `/v2/me`
body and the extracted email. -/
def buildProfile (me : Me) (email : Option String) : LinkedInProfile :=
  { linkedin_id := me.id.getD ""
    first_name := me.localizedFirstName
    last_name := me.localizedLastName
    full_name := mkFullName me.localizedFirstName me.localizedLastName
    email := email
    headline := me.headline
    avatar_url := extractAvatar me
    locale := deriveLocale me.primaryLocale
    raw := me }

/-- A document of the `linkedinprofile` collection: all profile fields
(`$set` writes every `model_dump()` field) plus the two timestamps. -/
structure StoredProfile where
  profile : LinkedInProfile
  created_at : Nat
  updated_at : Nat
  deriving DecidableEq, Repr

/-- `update_one({"linkedin_id": id}, {"$set": {...profile, updated_at: now},
"$setOnInsert": {created_at: now}}, upsert=True)` (main.py 281-288): update
the first document matching the filter, overwriting every profile field and
`updated_at` and keeping `created_at`; insert with both timestamps `now`
when no document matches. -/
def upsertProfile (now : Nat) (p : LinkedInProfile) :
    List StoredProfile → List StoredProfile
  | [] => [{ profile := p, created_at := now, updated_at := now }]
  | r :: rs =>
    if r.profile.linkedin_id = p.linkedin_id then
      { profile := p, created_at := r.created_at, updated_at := now } :: rs
    else
      r :: upsertProfile now p rs

/-- An `HTTPException`: status code and detail message. -/
structure HError where
  status : Nat
  detail : String
  deriving DecidableEq, Repr

/-- The callback's JSON response (main.py 291-295): the profile dump with
`created_at` and `updated_at` both set to this call's `now`. -/
structure CallbackOut where
  profile : LinkedInProfile
  created_at : Nat
  updated_at : Nat
  deriving DecidableEq, Repr

/-- `linkedin_callback` (main.py 198-295).  Configuration values are the
three environment variables; `tok`, `meR`, `emailR` are the three outbound
responses; `store` is `None` when `db is None`, else the current
`linkedinprofile` collection.  Returns the response body and the collection
after the upsert, or the raised `HTTPException`. -/
def linkedin_callback (clientId clientSecret redirectUri : Option String)
    (tok : TokenResp) (meR : MeResp) (emailR : EmailResp)
    (now : Nat) (store : Option (List StoredProfile)) :
    Except HError (CallbackOut × List StoredProfile) :=
  if ¬ (truthy clientId && truthy clientSecret && truthy redirectUri) then
    .error { status := 400
             detail := "LinkedIn OAuth is not configured. Set LINKEDIN_CLIENT_ID, LINKEDIN_CLIENT_SECRET and LINKEDIN_REDIRECT_URI." }
  else if tok.status ≠ 200 then
    .error { status := tok.status
             detail := "LinkedIn token exchange failed: " ++ tok.body }
  else if ¬ truthy tok.access_token then
    .error { status := 400, detail := "No access token in response" }
  else if meR.status ≠ 200 then
    .error { status := meR.status
             detail := "LinkedIn /me failed: " ++ meR.body }
  else
    let email := extractEmail emailR
    let profile := buildProfile meR.me email
    match store with
    | none => .error { status := 500, detail := "Database not available" }
    | some coll =>
      .ok ({ profile := profile, created_at := now, updated_at := now },
           upsertProfile now profile coll)

/-- The `linkedinprofile` collection after a callback call: unchanged when
the call raises. -/
def callbackStoreAfter (clientId clientSecret redirectUri : Option String)
    (tok : TokenResp) (meR : MeResp) (emailR : EmailResp)
    (now : Nat) (coll : List StoredProfile) : List StoredProfile :=
  match linkedin_callback clientId clientSecret redirectUri tok meR emailR now (some coll) with
  | .ok (_, s) => s
  | .error _ => coll

/-- First stored document with the given `linkedin_id` (the filter
`{"linkedin_id": k}` of `update_one`/`find_one`). -/
def findById (k : String) (coll : List StoredProfile) : Option StoredProfile :=
  coll.find? (fun r => r.profile.linkedin_id = k)

/-- At most one stored document per `linkedin_id`. -/
def keyUnique (coll : List StoredProfile) : Prop :=
  coll.Pairwise (fun a b => a.profile.linkedin_id ≠ b.profile.linkedin_id)

/-! ## Concrete inputs used by witnesses and counterexamples -/

/-- A record lacking `match`, for the C9 witness. -/
def jobNoMatch : JobDoc :=
  { title := "a", company := "a", location := "a", tags := [], matchScore := none }

/-- A record with a negative match score, for the C9 witness. -/
def jobNegMatch : JobDoc :=
  { title := "b", company := "b", location := "b", tags := [], matchScore := some (-1) }

/-- A record carrying tags X, Y, Z, for the C4 witness. -/
def jobXYZ : JobDoc :=
  { title := "t", company := "c", location := "l", tags := ["X", "Y", "Z"],
    matchScore := some 1 }

/-- A record whose title matches the regex "x.z" but does not contain it as
a substring, for the C5 counterexample. -/
def jobXYZTitle : JobDoc :=
  { title := "xyz", company := "c", location := "l", tags := [], matchScore := some 1 }

/-- A record matched by q = "dev", for the C5 witness. -/
def jobDev : JobDoc :=
  { title := "DevOps Engineer", company := "Seek", location := "Sydney",
    tags := [], matchScore := some 84 }

/-- A concrete `/v2/me` body for the callback witnesses. -/
def meW : Me :=
  { id := some "42", localizedFirstName := some "Ada", localizedLastName := none,
    headline := none, profilePicture := none, primaryLocale := none }

def profW : LinkedInProfile := buildProfile meW none

def tokW : TokenResp := { status := 200, body := "", access_token := some "t" }

/-- A failed token-exchange response, for the C1 witness. -/
def tokFail : TokenResp := { status := 500, body := "boom", access_token := none }

/-- A 200 token-exchange response whose body lacks the access-token field,
for the C1 counterexample. -/
def tokNoToken : TokenResp := { status := 200, body := "{}", access_token := none }

def meRW : MeResp := { status := 200, body := "", me := meW }

/-- A failed email fetch. -/
def emRW : EmailResp := { status := 500, elements := [] }

/-- A collection already holding the profile for external id "42",
created at time 1. -/
def collW : List StoredProfile := [{ profile := profW, created_at := 1, updated_at := 1 }]

/-- `collW` after a second upsert at time 5. -/
def collW' : List StoredProfile := [{ profile := profW, created_at := 1, updated_at := 5 }]

/-- The response body of that second call. -/
def outW : CallbackOut := { profile := profW, created_at := 5, updated_at := 5 }

/-- The `/v2/me` body without an `id` field, for the C8 counterexample. -/
def meNoId : Me :=
  { id := none, localizedFirstName := some "A", localizedLastName := none,
    headline := none, profilePicture := none, primaryLocale := none }

/-- A `/v2/me` body whose locale has a country but no language, for the C6
counterexample. -/
def meNoLang : Me :=
  { id := some "42", localizedFirstName := none, localizedLastName := none,
    headline := none, profilePicture := none,
    primaryLocale := some { language := none, country := some "US" } }

/-! ## Helper lemmas -/

theorem mem_upsertProfile {b : StoredProfile} {now : Nat} {p : LinkedInProfile}
    {coll : List StoredProfile} (hb : b ∈ upsertProfile now p coll) :
    b.profile.linkedin_id = p.linkedin_id ∨ b ∈ coll := by
  induction coll with
  | nil =>
    simp [upsertProfile] at hb
    subst hb
    exact Or.inl rfl
  | cons r rs ih =>
    by_cases h : r.profile.linkedin_id = p.linkedin_id
    · simp [upsertProfile, h] at hb
      rcases hb with hb | hb
      · subst hb; exact Or.inl rfl
      · exact Or.inr (List.mem_cons_of_mem _ hb)
    · simp [upsertProfile, h] at hb
      rcases hb with hb | hb
      · subst hb; exact Or.inr (List.mem_cons_self _ _)
      · rcases ih hb with h1 | h1
        · exact Or.inl h1
        · exact Or.inr (List.mem_cons_of_mem _ h1)

theorem keyUnique_upsertProfile {now : Nat} {p : LinkedInProfile}
    {coll : List StoredProfile} (hu : keyUnique coll) :
    keyUnique (upsertProfile now p coll) := by
  induction coll with
  | nil =>
    simp [upsertProfile, keyUnique]
  | cons r rs ih =>
    rcases List.pairwise_cons.1 hu with ⟨hr, hrs⟩
    by_cases h : r.profile.linkedin_id = p.linkedin_id
    · rw [upsertProfile, if_pos h]
      refine List.pairwise_cons.2 ⟨?_, hrs⟩
      intro b hb
      simpa [h] using hr b hb
    · rw [upsertProfile, if_neg h]
      refine List.pairwise_cons.2 ⟨?_, ih hrs⟩
      intro b hb
      rcases mem_upsertProfile hb with h1 | h1
      · rw [h1]; exact h
      · exact hr b h1

theorem findById_upsertProfile_self (now : Nat) (p : LinkedInProfile)
    (coll : List StoredProfile) :
    findById p.linkedin_id (upsertProfile now p coll) =
      some { profile := p
             created_at := match findById p.linkedin_id coll with
                           | some r => r.created_at
                           | none => now
             updated_at := now } := by
  induction coll with
  | nil =>
    simp [findById, upsertProfile]
  | cons r rs ih =>
    by_cases h : r.profile.linkedin_id = p.linkedin_id
    · simp [findById, upsertProfile, h, List.find?]
    · simp only [findById, upsertProfile, if_neg h, List.find?_cons]
      have hd : (decide (r.profile.linkedin_id = p.linkedin_id)) = false := by
        simpa using h
      rw [hd]
      exact ih

theorem findById_upsertProfile_other {k : String} {now : Nat} {p : LinkedInProfile}
    (coll : List StoredProfile) (hk : k ≠ p.linkedin_id) :
    findById k (upsertProfile now p coll) = findById k coll := by
  induction coll with
  | nil =>
    unfold findById upsertProfile
    rw [List.find?_cons_of_neg _ (by simpa using fun hh => hk hh.symm), List.find?_nil]
  | cons r rs ih =>
    by_cases h : r.profile.linkedin_id = p.linkedin_id
    · rw [upsertProfile, if_pos h]
      unfold findById
      rw [List.find?_cons_of_neg _ (by simpa using fun hh => hk hh.symm),
          List.find?_cons_of_neg _ (by rw [h]; simpa using fun hh => hk hh.symm)]
    · rw [upsertProfile, if_neg h]
      unfold findById at ih ⊢
      by_cases hrk : r.profile.linkedin_id = k
      · rw [List.find?_cons_of_pos _ (by simpa using hrk),
            List.find?_cons_of_pos _ (by simpa using hrk)]
      · rw [List.find?_cons_of_neg _ (by simpa using hrk),
            List.find?_cons_of_neg _ (by simpa using hrk), ih]

/-- Inversion of a successful callback: the response body carries the
normalized profile with both timestamps equal to `now`, and the resulting
collection is the upsert of that profile. -/
theorem callback_ok_inv {clientId clientSecret redirectUri : Option String}
    {tok : TokenResp} {meR : MeResp} {emailR : EmailResp} {now : Nat}
    {coll coll' : List StoredProfile} {out : CallbackOut}
    (hok : linkedin_callback clientId clientSecret redirectUri tok meR emailR now
             (some coll) = .ok (out, coll')) :
    out = { profile := buildProfile meR.me (extractEmail emailR)
            created_at := now
            updated_at := now } ∧
    coll' = upsertProfile now (buildProfile meR.me (extractEmail emailR)) coll := by
  unfold linkedin_callback at hok
  split at hok
  · exact absurd hok (by simp)
  · split at hok
    · exact absurd hok (by simp)
    · split at hok
      · exact absurd hok (by simp)
      · split at hok
        · exact absurd hok (by simp)
        · simp only [Except.ok.injEq, Prod.mk.injEq] at hok
          exact ⟨hok.1.symm, hok.2.symm⟩

/-- The job list returned by `list_jobs` is pairwise sorted descending by
the `match` key. -/
theorem listJobs_sorted (q tags : Option String) (docs : List JobDoc) :
    ((list_jobs q tags docs).1).Pairwise (fun a b => matchKey b ≤ matchKey a) := by
  have h := @List.sorted_mergeSort JobDoc
    (fun a b : JobDoc => decide (matchKey b ≤ matchKey a))
    (fun a b c hab hbc => by
      simp only [decide_eq_true_eq] at hab hbc ⊢
      omega)
    (fun a b => by
      rcases Int.le_total (matchKey b) (matchKey a) with h | h <;> simp [h])
    (docs.filter (jobQueryFilter q tags))
  exact h.imp (fun hab => of_decide_eq_true hab)

/-- Membership in the job list is membership in the collection plus the
query filter. -/
theorem mem_listJobs {q tags : Option String} {docs : List JobDoc} {j : JobDoc} :
    j ∈ (list_jobs q tags docs).1 ↔ j ∈ docs ∧ jobQueryFilter q tags j = true := by
  unfold list_jobs
  rw [List.mem_mergeSort, List.mem_filter]

/-! ## Claim theorems -/

/-- C3: every result list of `list_jobs` is sorted descending by the match
score (any record A before B has A.match ≥ B.match, missing scores counting
as 0), and the returned count equals the length of the items list. -/
theorem jobs_sorted_desc_and_count (q tags : Option String) (docs : List JobDoc) :
    (list_jobs q tags docs).2 = (list_jobs q tags docs).1.length ∧
    ((list_jobs q tags docs).1).Pairwise (fun a b => matchKey b ≤ matchKey a) :=
  ⟨rfl, listJobs_sorted q tags docs⟩

/-- C9: a record lacking the `match` field sorts with key 0, so it is never
placed before a record with a positive match score: whenever `a` appears
before `b` in a `list_jobs` result and `a` has no match score, `b`'s score
is not positive. -/
theorem missing_match_never_before_positive (q tags : Option String)
    (docs : List JobDoc) (a b : JobDoc)
    (hsub : [a, b].Sublist (list_jobs q tags docs).1)
    (ha : a.matchScore = none) :
    ¬ 0 < matchKey b := by
  have h := List.Pairwise.sublist hsub (listJobs_sorted q tags docs)
  have hba : matchKey b ≤ matchKey a :=
    (List.pairwise_cons.1 h).1 b (List.mem_cons_self _ _)
  have ha0 : matchKey a = 0 := by simp [matchKey, ha]
  omega

/-- Witness for C9 at a concrete input. -/
theorem missing_match_never_before_positive_witness :
    (list_jobs none none [jobNoMatch, jobNegMatch]).1 = [jobNoMatch, jobNegMatch] ∧
    jobNoMatch.matchScore = none ∧
    ¬ 0 < matchKey jobNegMatch := by
  have hl : (list_jobs none none [jobNoMatch, jobNegMatch]).1 = [jobNoMatch, jobNegMatch] := by
    simp [list_jobs, jobQueryFilter, List.mergeSort, List.merge, matchKey,
      jobNoMatch, jobNegMatch]
  exact ⟨hl, rfl,
    missing_match_never_before_positive none none [jobNoMatch, jobNegMatch]
      jobNoMatch jobNegMatch (by rw [hl]) rfl⟩

/-- C4: the `tags` parameter is split on commas, trimmed, with empty tokens
dropped (`parseTags`), and any record returned by `list_jobs` carries every
resulting tag (logical AND). -/
theorem tags_filter_requires_all_tags (q : Option String) (tags : String)
    (docs : List JobDoc) (j : JobDoc)
    (hj : j ∈ (list_jobs q (some tags) docs).1) :
    ∀ t ∈ parseTags tags, t ∈ j.tags := by
  have hq := (mem_listJobs.1 hj).2
  simp only [jobQueryFilter, Bool.and_eq_true] at hq
  have h2 := hq.2
  by_cases hts : tags = ""
  · intro t ht
    rw [hts, show parseTags "" = [] from by decide] at ht
    exact absurd ht (List.not_mem_nil t)
  · rw [if_neg hts] at h2
    by_cases hpl : parseTags tags = []
    · intro t ht
      rw [hpl] at ht
      simp at ht
    · rw [if_neg hpl] at h2
      intro t ht
      have := List.all_eq_true.1 h2 t ht
      simpa using this

/-- Witness for C4 at a concrete input. -/
theorem tags_filter_requires_all_tags_witness :
    jobXYZ ∈ (list_jobs none (some "X,Y") [jobXYZ]).1 ∧ "Y" ∈ jobXYZ.tags := by
  have hmem : jobXYZ ∈ (list_jobs none (some "X,Y") [jobXYZ]).1 :=
    mem_listJobs.2 ⟨by simp, by decide⟩
  exact ⟨hmem,
    tags_filter_requires_all_tags none "X,Y" [jobXYZ] jobXYZ hmem "Y" (by decide)⟩

/-- C5 counterexample: with q = "x.z", a record titled "xyz" is returned
(`$regex` treats `.` as a wildcard), although "x.z" is not a case-insensitive
substring of its title, company or location — so the substring reading of
the q filter is false. -/
theorem q_filter_not_substring_cex :
    jobXYZTitle ∈ (list_jobs (some "x.z") none [jobXYZTitle]).1 ∧
    specSubstrCI "x.z" jobXYZTitle.title = false ∧
    specSubstrCI "x.z" jobXYZTitle.company = false ∧
    specSubstrCI "x.z" jobXYZTitle.location = false :=
  ⟨mem_listJobs.2 ⟨by simp, by decide⟩, by decide, by decide, by decide⟩

/-- C5 amended: a non-empty `q` is interpreted as a case-insensitive
*regular expression* over title, company and location (Mongo `$regex`), not
as a literal substring: a record is returned iff the regex matches one of
the three fields.  For `q` without regex metacharacters this coincides with
the substring reading. -/
theorem q_filter_regex_characterization (q : String) (docs : List JobDoc)
    (j : JobDoc) (hq : q ≠ "") :
    j ∈ (list_jobs (some q) none docs).1 ↔ j ∈ docs ∧ matchesQ q j = true := by
  rw [mem_listJobs]
  simp only [jobQueryFilter, if_neg hq, Bool.and_true]

/-- Witness for the amended C5 at a concrete input. -/
theorem q_filter_regex_characterization_witness :
    ("dev" ≠ "") ∧
    (jobDev ∈ (list_jobs (some "dev") none [jobDev]).1 ↔
      jobDev ∈ [jobDev] ∧ matchesQ "dev" jobDev = true) :=
  ⟨by decide, q_filter_regex_characterization "dev" [jobDev] jobDev (by decide)⟩

/-- C1 counterexample: a 200 token response whose body lacks the
access-token field aborts with the fixed `400 "No access token in
response"` (main.py:219-220): the surfaced status differs from the
upstream status (which was 200) and the surfaced detail does not carry the
upstream body — so "surfaces the upstream status/body" is false for this
failure mode.  The collection is still left unchanged. -/
theorem token_missing_not_upstream_cex :
    linkedin_callback (some "a") (some "b") (some "c") tokNoToken meRW emRW 7
        (some collW) =
      .error { status := 400, detail := "No access token in response" } ∧
    tokNoToken.status = 200 ∧
    (400 : Nat) ≠ tokNoToken.status ∧
    "No access token in response" ≠ "LinkedIn token exchange failed: " ++ tokNoToken.body ∧
    callbackStoreAfter (some "a") (some "b") (some "c") tokNoToken meRW emRW 7 collW =
      collW := by
  exact ⟨by rfl, rfl, by decide, by decide, by rfl⟩

/-- C1 amended: with the provider configured, a failed token exchange
aborts the callback with an error, and the stored profile collection is
unchanged; a non-200 upstream response surfaces the upstream status and
body, while a 200 response without an access token aborts with the fixed
`400 "No access token in response"`. -/
theorem token_exchange_failure_aborts
    (clientId clientSecret redirectUri : Option String) (tok : TokenResp)
    (meR : MeResp) (emailR : EmailResp) (now : Nat) (coll : List StoredProfile)
    (hconf : (truthy clientId && truthy clientSecret && truthy redirectUri) = true)
    (hfail : tok.status ≠ 200 ∨ truthy tok.access_token = false) :
    (∃ e : HError, linkedin_callback clientId clientSecret redirectUri tok meR emailR now
        (some coll) = .error e) ∧
    callbackStoreAfter clientId clientSecret redirectUri tok meR emailR now coll = coll ∧
    (tok.status ≠ 200 →
      linkedin_callback clientId clientSecret redirectUri tok meR emailR now (some coll) =
        .error { status := tok.status
                 detail := "LinkedIn token exchange failed: " ++ tok.body }) ∧
    (tok.status = 200 →
      linkedin_callback clientId clientSecret redirectUri tok meR emailR now (some coll) =
        .error { status := 400, detail := "No access token in response" }) := by
  by_cases hs : tok.status = 200
  · have h : truthy tok.access_token = false := by
      rcases hfail with h | h
      · exact absurd hs h
      · exact h
    have he : linkedin_callback clientId clientSecret redirectUri tok meR emailR now
        (some coll) = .error { status := 400, detail := "No access token in response" } := by
      simp [linkedin_callback, hconf, hs, h]
    refine ⟨⟨_, he⟩, ?_, fun hne => absurd hs hne, fun _ => he⟩
    unfold callbackStoreAfter
    rw [he]
  · have he : linkedin_callback clientId clientSecret redirectUri tok meR emailR now
        (some coll) = .error { status := tok.status
                               detail := "LinkedIn token exchange failed: " ++ tok.body } := by
      simp [linkedin_callback, hconf, hs]
    refine ⟨⟨_, he⟩, ?_, fun _ => he, fun hs2 => absurd hs2 hs⟩
    unfold callbackStoreAfter
    rw [he]

/-- Witness for the amended C1 at a concrete input: upstream token status
500 with body "boom". -/
theorem token_exchange_failure_aborts_witness :
    (∃ e : HError, linkedin_callback (some "a") (some "b") (some "c") tokFail meRW emRW 7
        (some collW) = .error e) ∧
    callbackStoreAfter (some "a") (some "b") (some "c") tokFail meRW emRW 7 collW = collW ∧
    (tokFail.status ≠ 200 →
      linkedin_callback (some "a") (some "b") (some "c") tokFail meRW emRW 7 (some collW) =
        .error { status := tokFail.status
                 detail := "LinkedIn token exchange failed: " ++ tokFail.body }) ∧
    (tokFail.status = 200 →
      linkedin_callback (some "a") (some "b") (some "c") tokFail meRW emRW 7 (some collW) =
        .error { status := 400, detail := "No access token in response" }) :=
  token_exchange_failure_aborts (some "a") (some "b") (some "c") tokFail meRW emRW 7 collW
    (by decide) (Or.inl (by decide))

/-- C2: a successful callback call upserts keyed on the external id: at most
one record per id is preserved, the record stored under the profile's id
carries all the new field values (last-write-wins) with `updated_at` set to
the current time and `created_at` from the first insert, and records with
other ids are untouched. -/
theorem upsert_keyed_on_external_id
    (clientId clientSecret redirectUri : Option String) (tok : TokenResp)
    (meR : MeResp) (emailR : EmailResp) (now : Nat)
    (coll coll' : List StoredProfile) (out : CallbackOut)
    (hok : linkedin_callback clientId clientSecret redirectUri tok meR emailR now
      (some coll) = .ok (out, coll'))
    (hu : keyUnique coll) :
    keyUnique coll' ∧
    findById out.profile.linkedin_id coll' =
      some { profile := out.profile
             created_at := match findById out.profile.linkedin_id coll with
                           | some r => r.created_at
                           | none => now
             updated_at := now } ∧
    (∀ k, k ≠ out.profile.linkedin_id → findById k coll' = findById k coll) := by
  obtain ⟨ho, hc⟩ := callback_ok_inv hok
  subst ho
  subst hc
  exact ⟨keyUnique_upsertProfile hu,
    findById_upsertProfile_self now (buildProfile meR.me (extractEmail emailR)) coll,
    fun k hk => findById_upsertProfile_other coll hk⟩

/-- Witness for C2 at a concrete input: a second call for external id "42"
keeps one record, keeps `created_at = 1` from the first insert and advances
`updated_at` to 5. -/
theorem upsert_keyed_on_external_id_witness :
    keyUnique collW' ∧
    findById outW.profile.linkedin_id collW' =
      some { profile := outW.profile
             created_at := match findById outW.profile.linkedin_id collW with
                           | some r => r.created_at
                           | none => 5
             updated_at := 5 } ∧
    (∀ k, k ≠ outW.profile.linkedin_id → findById k collW' = findById k collW) :=
  upsert_keyed_on_external_id (some "a") (some "b") (some "c") tokW meRW emRW 5
    collW collW' outW (by rfl) (by simp [keyUnique, collW])

/-- C6 counterexample: an upstream response with no language code but
country "US" yields the locale `"_US"`, not the empty string. -/
theorem locale_no_language_cex :
    (buildProfile meNoLang none).locale = "_US" ∧ ("_US" : String) ≠ "" := by
  exact ⟨by decide, by decide⟩

/-- C6 amended: the derived locale is the language code (empty if absent)
followed by `"_" ++ country` whenever a non-empty country code is present:
with both codes it is `lang_country`, with a language alone it is the
language, with no language but a non-empty country it is `"_" ++ country`
(not the empty string), and with neither it is empty. -/
theorem locale_derivation_amended (lang ctry : String) :
    (deriveLocale (some { language := some lang, country := some ctry }) =
      if ctry = "" then lang else lang ++ "_" ++ ctry) ∧
    deriveLocale (some { language := some lang, country := none }) = lang ∧
    (deriveLocale (some { language := none, country := some ctry }) =
      if ctry = "" then "" else "_" ++ ctry) ∧
    deriveLocale (some { language := none, country := none }) = "" ∧
    deriveLocale none = "" := by
  refine ⟨?_, ?_, ?_, rfl, rfl⟩
  · by_cases h : ctry = "" <;>
      simp [deriveLocale, h, String.append_assoc]
  · simp [deriveLocale]
  · by_cases h : ctry = "" <;>
      simp [deriveLocale, h]

/-- C7: with the provider configured and the token and profile steps
succeeding, an email-fetch failure — non-200 status or a failed extraction
from the nested body — is non-fatal: the callback succeeds, the response
profile has no email, and the record stored under its id has no email. -/
theorem email_failure_nonfatal
    (clientId clientSecret redirectUri : Option String) (tok : TokenResp)
    (meR : MeResp) (emailR : EmailResp) (now : Nat) (coll : List StoredProfile)
    (hconf : (truthy clientId && truthy clientSecret && truthy redirectUri) = true)
    (htok : tok.status = 200) (hat : truthy tok.access_token = true)
    (hme : meR.status = 200)
    (hfail : emailR.status ≠ 200 ∨ extractEmail emailR = none) :
    ∃ out coll', linkedin_callback clientId clientSecret redirectUri tok meR emailR now
        (some coll) = .ok (out, coll') ∧
      out.profile.email = none ∧
      ∃ r, findById out.profile.linkedin_id coll' = some r ∧ r.profile.email = none := by
  have hem : extractEmail emailR = none := by
    rcases hfail with h | h
    · unfold extractEmail
      rw [if_neg h]
    · exact h
  have hok : linkedin_callback clientId clientSecret redirectUri tok meR emailR now
      (some coll) =
      .ok ({ profile := buildProfile meR.me none, created_at := now, updated_at := now },
           upsertProfile now (buildProfile meR.me none) coll) := by
    simp [linkedin_callback, hconf, htok, hat, hme, hem]
  refine ⟨_, _, hok, rfl, ?_⟩
  exact ⟨_, findById_upsertProfile_self now (buildProfile meR.me none) coll, rfl⟩

/-- Witness for C7 at a concrete input: email endpoint returns 500. -/
theorem email_failure_nonfatal_witness :
    ∃ out coll', linkedin_callback (some "a") (some "b") (some "c") tokW meRW emRW 5
        (some []) = .ok (out, coll') ∧
      out.profile.email = none ∧
      ∃ r, findById out.profile.linkedin_id coll' = some r ∧ r.profile.email = none :=
  email_failure_nonfatal (some "a") (some "b") (some "c") tokW meRW emRW 5 []
    (by decide) (by decide) (by decide) (by decide) (Or.inl (by decide))

/-- C8 counterexample: when the upstream profile response lacks the `id`
field, the callback still succeeds and persists a record whose
`linkedin_id` is the empty string. -/
theorem external_id_empty_cex :
    linkedin_callback (some "a") (some "b") (some "c") tokW
        { status := 200, body := "", me := meNoId } emRW 5 (some []) =
      .ok ({ profile := buildProfile meNoId none, created_at := 5, updated_at := 5 },
           [{ profile := buildProfile meNoId none, created_at := 5, updated_at := 5 }]) ∧
    (buildProfile meNoId none).linkedin_id = "" := by
  exact ⟨by rfl, by decide⟩

/-- C8 amended: the persisted external id equals the upstream `id` field
coalesced with `""` (`me.get("id") or ""`): it is non-empty iff the
upstream response carries a non-empty id, and with no upstream id the
profile is persisted with an empty `linkedin_id`. -/
theorem external_id_amended
    (clientId clientSecret redirectUri : Option String) (tok : TokenResp)
    (meR : MeResp) (emailR : EmailResp) (now : Nat)
    (coll coll' : List StoredProfile) (out : CallbackOut)
    (hok : linkedin_callback clientId clientSecret redirectUri tok meR emailR now
      (some coll) = .ok (out, coll')) :
    out.profile.linkedin_id = meR.me.id.getD "" ∧
    (out.profile.linkedin_id ≠ "" ↔ truthy meR.me.id = true) := by
  obtain ⟨ho, _⟩ := callback_ok_inv hok
  subst ho
  refine ⟨rfl, ?_⟩
  show meR.me.id.getD "" ≠ "" ↔ truthy meR.me.id = true
  cases h : meR.me.id <;> simp [truthy]

/-- Witness for the amended C8 at a concrete input. -/
theorem external_id_amended_witness :
    outW.profile.linkedin_id = meRW.me.id.getD "" ∧
    (outW.profile.linkedin_id ≠ "" ↔ truthy meRW.me.id = true) :=
  external_id_amended (some "a") (some "b") (some "c") tokW meRW emRW 5
    collW collW' outW (by rfl)

/-- C10: the callback response body always reports
`created_at = updated_at = now` of the current call, whatever the stored
collection holds. -/
theorem response_timestamps_always_now
    (clientId clientSecret redirectUri : Option String) (tok : TokenResp)
    (meR : MeResp) (emailR : EmailResp) (now : Nat)
    (coll coll' : List StoredProfile) (out : CallbackOut)
    (hok : linkedin_callback clientId clientSecret redirectUri tok meR emailR now
      (some coll) = .ok (out, coll')) :
    out.created_at = now ∧ out.updated_at = now := by
  obtain ⟨ho, _⟩ := callback_ok_inv hok
  subst ho
  exact ⟨rfl, rfl⟩

/-- Witness for C10 at a concrete input: the stored record was created at
time 1, yet the call at time 5 reports both timestamps as 5. -/
theorem response_timestamps_always_now_witness :
    ({ profile := profW, created_at := 1, updated_at := 1 } : StoredProfile).created_at ≠ 5 ∧
    (outW.created_at = 5 ∧ outW.updated_at = 5) :=
  ⟨by decide,
    response_timestamps_always_now (some "a") (some "b") (some "c") tokW meRW emRW 5
      collW collW' outW (by rfl)⟩

end JobNexus
